import Mathlib

/-!
A shallow embedding of the docling-mcp repository's agentic client
(`src/clients/client_sse.py`) and of the document-generation server tools
(`src/docling_mcp/tools/generation.py`, `src/docling_mcp/servers/mcp_server.py`),
together with theorems settling the frozen claims about them.

The client's external collaborators (the language-model API and the MCP
tool-execution session) are modelled as an explicit environment of functions;
exceptions raised by Python code are modelled with `Except String`.
-/

namespace DoclingMCP

/-- A content block of a model response: either a text segment or a
tool-invocation request (`{type: tool_use, id, name, input}`).
Tool arguments are kept opaque as their serialized form. -/
inductive ContentBlock where
  | text (s : String)
  | toolUse (id : String) (name : String) (input : String)
deriving DecidableEq, Repr

/-- A Tool Result Envelope as built by `process_query`
(`{"type": "tool_result", "tool_use_id": ..., "content": ..., "is_error": ...}`).
The source omits the `is_error` key on success; the API reads a missing key as
`false`, which is how we model it. -/
structure ToolResult where
  tool_use_id : String
  content : String
  is_error : Bool
deriving DecidableEq, Repr

/-- The content payload of a transcript turn: plain text, a raw list of
response content blocks, or a grouped list of tool result envelopes. -/
inductive MessageContent where
  | text (s : String)
  | blocks (bs : List ContentBlock)
  | toolResults (rs : List ToolResult)
deriving DecidableEq, Repr

/-- One turn of the transcript (`{"role": ..., "content": ...}`). -/
structure Message where
  role : String
  content : MessageContent
deriving DecidableEq, Repr

/-- A tool descriptor as returned by the session's `list_tools` and as passed
to the model API (the source maps the session's tool objects to dicts with the
same three fields, so the mapping is the identity here). -/
structure ToolDescriptor where
  name : String
  description : String
  input_schema : String
deriving DecidableEq, Repr

/-- The external collaborators of the client: the session's `list_tools` and
`call_tool`, and the model API `messages.create`. Each may raise, modelled as
`Except.error` carrying the stringified exception. `modelStep` receives the
tool list and the message list of the request and yields the response content
blocks; quantifying theorems over `Env` covers all collaborator behaviors. -/
structure Env where
  listTools : Except String (List ToolDescriptor)
  modelStep : List ToolDescriptor → List Message → Except String (List ContentBlock)
  callTool : String → String → Except String String

/-- Mutable state threaded through one round of `process_query`:
`execution_log`, `messages`, `tool_results`, `has_tool_calls`. -/
structure RoundState where
  log : List String
  messages : List Message
  toolResults : List ToolResult
  hasToolCalls : Bool
deriving Repr

/-- The Tool Invoker: one `session.call_tool` guarded by try/except
(`client_sse.py` lines 95-113). On success the envelope wraps the raw result
content; on an exception it wraps `"Error: " ++ str(e)` under `is_error=true`.
It is total: no exception escapes. -/
def invokeTool (env : Env) (id name input : String) : ToolResult :=
  match env.callTool name input with
  | .ok c => { tool_use_id := id, content := c, is_error := false }
  | .error e => { tool_use_id := id, content := "Error: " ++ e, is_error := true }

/-- The execution-log line recording a tool call's outcome. -/
def toolOutcomeLog (env : Env) (name input : String) : String :=
  match env.callTool name input with
  | .ok c => "✅ Tool result: " ++ c
  | .error e => "❌ Tool error: " ++ e

/-- Processing of a single response content block inside the round's
`for content in response.content` loop of `process_query`. -/
def processContent (env : Env) (st : RoundState) (c : ContentBlock) : RoundState :=
  match c with
  | .text s =>
    { st with
      log := st.log ++ ["Claude: " ++ s],
      messages := st.messages ++ [{ role := "assistant", content := .text s }] }
  | .toolUse id name input =>
    { st with
      hasToolCalls := true,
      log := st.log ++ ["🔧 Calling tool '" ++ name ++ "' with args: " ++ input,
                        toolOutcomeLog env name input],
      toolResults := st.toolResults ++ [invokeTool env id name input] }

/-- The whole `for content in response.content` loop of one round. -/
def roundFold (env : Env) (bs : List ContentBlock) (st : RoundState) : RoundState :=
  bs.foldl (processContent env) st

/-- One round of the non-streaming Turn Loop: one model call, processing of
every content block, and the end-of-round transcript update (lines 67-120 of
`client_sse.py`). Returns the new messages, the new log, and `has_tool_calls`. -/
def processRound (env : Env) (tools : List ToolDescriptor) (messages : List Message)
    (log : List String) : Except String (List Message × List String × Bool) := do
  let content ← env.modelStep tools messages
  let st := roundFold env content
    { log := log, messages := messages, toolResults := [], hasToolCalls := false }
  if st.hasToolCalls then
    pure (st.messages ++
            [{ role := "assistant", content := .blocks content },
             { role := "user", content := .toolResults st.toolResults }],
          st.log, true)
  else
    pure (st.messages, st.log, false)

/-- `self.max_iterations = 20`. -/
def max_iterations : Nat := 20

/-- The `while iteration < self.max_iterations` loop of `process_query`.
`fuel` is the number of remaining permitted rounds
(`max_iterations - iteration`); `iteration` counts completed rounds, i.e.
model calls issued by the loop. -/
def turnLoop (env : Env) (tools : List ToolDescriptor) :
    Nat → List Message → List String → Nat →
    Except String (List Message × List String × Nat)
  | 0, messages, log, iteration => pure (messages, log, iteration)
  | Nat.succ fuel, messages, log, iteration => do
    let (messages2, log2, cont) ← processRound env tools messages log
    if cont then
      turnLoop env tools fuel messages2 log2 (iteration + 1)
    else
      pure (messages2, log2, iteration + 1)

/-- The value stored by the interactive shell as carryover context. Initially
a plain string sentinel; after a completed non-streaming task it is the first
content block of the summary response (`new_summary = summary.content[0]` is a
block object, not a string). -/
inductive Context where
  | str (s : String)
  | block (b : ContentBlock)
deriving DecidableEq, Repr

/-- Rendering of a response content block when interpolated into a Python
f-string. The source interpolates the SDK block object itself; we model the
rendering of a text block charitably as its text. No claim depends on the
exact rendering of a block. -/
def renderBlock : ContentBlock → String
  | .text s => s
  | .toolUse id name input =>
    "ToolUseBlock(id=" ++ id ++ ", name=" ++ name ++ ", input=" ++ input ++ ")"

/-- Rendering of the stored context when interpolated into the f-string
`f"Previous conversation context: {conversation_summary}"`. -/
def renderContext : Context → String
  | .str s => s
  | .block b => renderBlock b

/-- Python truthiness of the `conversation_summary` argument
(`if conversation_summary:`): `None` and the empty string are falsy; a block
object is always truthy. -/
def contextTruthy : Option Context → Bool
  | none => false
  | some (.str s) => !s.isEmpty
  | some (.block _) => true

/-- The initial messages of a task: the optional assistant-authored context
turn followed by the user-query turn (lines 40-52 of `client_sse.py`). -/
def initMessages (conversation_summary : Option Context) (query : String) : List Message :=
  (match conversation_summary with
   | some c =>
     if contextTruthy (some c) then
       [{ role := "assistant",
          content := .text ("Previous conversation context: " ++ renderContext c) }]
     else []
   | none => []) ++ [{ role := "user", content := .text query }]

/-- The fixed user prompt of the Context Compressor call. -/
def summaryPrompt : String :=
  "Please provide a brief summary of the conversation so far. Make sure to prioritize the user's goals, actions taken, and any important data like document keys that will be important for the continuation of work. List the most recent actions first"

/-- The ceiling-reached notice appended to the execution log. -/
def ceilingNotice : String :=
  "⚠️ Reached maximum iterations (" ++ toString max_iterations ++ ")"

/-- The observable outcome of `process_query`. The Python function returns the
pair (`executionLog`, `newSummary`); `transcript` (the final `messages` list)
and `iterations` are the internal state exposed for specification. -/
structure QueryResult where
  transcript : List Message
  executionLog : String
  iterations : Nat
  newSummary : ContentBlock
deriving DecidableEq, Repr

/-- `MCPClient.process_query`: initial messages, `list_tools`, the Turn Loop,
the conditional ceiling notice, and the unconditional Context Compressor call
whose response's first content block becomes the new summary. An empty summary
response would make `summary.content[0]` raise, modelled as an error. -/
def process_query (env : Env) (query : String) (conversation_summary : Option Context) :
    Except String QueryResult := do
  let messages := initMessages conversation_summary query
  let available_tools ← env.listTools
  let (finalMessages, log, iteration) ←
    turnLoop env available_tools max_iterations messages [] 0
  let log := if max_iterations ≤ iteration then log ++ [ceilingNotice] else log
  let summaryContent ← env.modelStep available_tools
    (finalMessages ++ [{ role := "user", content := .text summaryPrompt }])
  match summaryContent with
  | [] => Except.error "IndexError: list index out of range"
  | b :: _ =>
    pure { transcript := finalMessages,
           executionLog := String.intercalate "\n" log,
           iterations := iteration,
           newSummary := b }

/-- Per-block state of `process_query_with_streaming`: the accumulating
`assistant_message_content`, the messages, and `has_tool_calls`. Note the
source appends every block to `assistant_message_content` before dispatching
on its type, and appends an assistant turn plus a single-envelope user turn
for every tool call separately. -/
structure StreamState where
  assistantContent : List ContentBlock
  messages : List Message
  hasToolCalls : Bool
deriving Repr

/-- Processing of one content block in the streaming variant. -/
def streamContent (env : Env) (st : StreamState) (c : ContentBlock) : StreamState :=
  let st := { st with assistantContent := st.assistantContent ++ [c] }
  match c with
  | .text _ => st
  | .toolUse id name input =>
    { st with
      hasToolCalls := true,
      messages := st.messages ++
        [{ role := "assistant", content := .blocks st.assistantContent },
         { role := "user", content := .toolResults [invokeTool env id name input] }] }

/-- One round of the streaming variant. -/
def streamRound (env : Env) (tools : List ToolDescriptor) (messages : List Message) :
    Except String (List Message × Bool) := do
  let content ← env.modelStep tools messages
  let st := content.foldl (streamContent env)
    { assistantContent := [], messages := messages, hasToolCalls := false }
  pure (st.messages, st.hasToolCalls)

/-- The `while` loop of the streaming variant. -/
def streamLoop (env : Env) (tools : List ToolDescriptor) :
    Nat → List Message → Except String (List Message)
  | 0, messages => pure messages
  | Nat.succ fuel, messages => do
    let (messages2, cont) ← streamRound env tools messages
    if cont then streamLoop env tools fuel messages2 else pure messages2

/-- `MCPClient.process_query_with_streaming`: prints progress (not modelled),
returns the fixed string, and never touches the shell's context. -/
def process_query_with_streaming (env : Env) (query : String) : Except String String := do
  let messages := [{ role := "user", content := MessageContent.text query }]
  let tools ← env.listTools
  let _ ← streamLoop env tools max_iterations messages
  pure "Task completed!"

/-- Python's `str.lower()` on the shell input, character by character
(executable by the kernel, unlike the library's string lowering). -/
def pyLower (s : String) : String := ⟨s.data.map Char.toLower⟩

/-- Python's `str.strip()` on the shell input: whitespace removed from both
ends. -/
def pyStrip (s : String) : String :=
  ⟨((s.data.dropWhile Char.isWhitespace).reverse.dropWhile Char.isWhitespace).reverse⟩

/-- The shell's initial (and reset) context sentinel. -/
def initialContext : Context := .str "None. Start of a new conversation."

/-- Whether one pass of the shell loop exits or keeps accepting commands. -/
inductive ChatOutcome where
  | quit
  | keepGoing
deriving DecidableEq, Repr

/-- The interactive shell's per-iteration state: the stored carryover context
and the streaming-mode toggle. -/
structure ShellState where
  context : Context
  streaming_mode : Bool
deriving DecidableEq, Repr

/-- One iteration of `MCPClient.chat_loop` on one line of input. The body runs
under try/except: an exception from a task is printed and the loop continues
with the state unchanged (in particular the stored context is untouched). -/
def chat_loop_step (env : Env) (st : ShellState) (rawInput : String) :
    ShellState × ChatOutcome :=
  let query := pyStrip rawInput
  if pyLower query == "quit" then (st, .quit)
  else if pyLower query == "stream" then
    ({ st with streaming_mode := !st.streaming_mode }, .keepGoing)
  else if pyLower query == "context" then (st, .keepGoing)
  else if pyLower query == "reset" then ({ st with context := initialContext }, .keepGoing)
  else if st.streaming_mode then
    match process_query_with_streaming env query with
    | .ok _ => (st, .keepGoing)
    | .error _ => (st, .keepGoing)
  else
    match process_query env query (some st.context) with
    | .ok r => ({ st with context := .block r.newSummary }, .keepGoing)
    | .error _ => (st, .keepGoing)

/-- Whether a content block is a tool-invocation request. -/
def isToolUse : ContentBlock → Bool
  | .toolUse _ _ _ => true
  | .text _ => false

/-- The correlation ids of the tool-invocation requests of a response, in
emission order. -/
def toolUseIds (bs : List ContentBlock) : List String :=
  bs.filterMap fun b => match b with
    | .toolUse id _ _ => some id
    | .text _ => none

/-- The assistant text turns a round appends to the transcript while scanning
a response (one per text block, in order). -/
def textTurns (bs : List ContentBlock) : List Message :=
  bs.filterMap fun b => match b with
    | .text s => some { role := "assistant", content := .text s }
    | .toolUse _ _ _ => none

/-- The Tool Result Envelopes a round collects for a response, in emission
order. -/
def roundToolResults (env : Env) (bs : List ContentBlock) : List ToolResult :=
  bs.filterMap fun b => match b with
    | .toolUse id name input => some (invokeTool env id name input)
    | .text _ => none

/-! Embedding of the document-generation tools
(`src/docling_mcp/tools/generation.py`). The document object model itself is
an external collaborator; we record a document as the ordered list of items
added to it. The shared mutable globals `shared.document` and `stack_cache`
become an explicit state record. -/

/-- The `GroupLabel` values the tools inspect. -/
inductive GroupLabelT where
  | list
  | ordered_list
  | unspecified
deriving DecidableEq, Repr

/-- An item added to the shared document (also what the stack cache holds). -/
inductive DocItem where
  | title (text : String)
  | sectionHeading (text : String) (level : Nat)
  | textItem (label : String) (text : String)
  | group (label : GroupLabelT)
  | listItem (text : String) (marker : String)
  | table
deriving DecidableEq, Repr

/-- The shared server state the generation tools read and mutate:
`shared.document` (None until initialized) and the stack cache. The top of the
Python stack is `stack_cache[-1]`, i.e. the last element here. -/
structure GenState where
  document : Option (List DocItem)
  stack_cache : List DocItem
deriving DecidableEq, Repr

/-- Error message raised when `shared.document` is unset. -/
def docNotInitMsg : String :=
  "Document has not been initialized. Please load a document first."

/-- Error message raised when the stack cache is empty. -/
def stackZeroMsg : String :=
  "Stack size is zero for the shared Docling Document. Abort document generation"

/-- Error message raised when an open list blocks adding an item. -/
def listOpenMsg (what : String) : String :=
  "A list is currently opened. Please close the list before adding a " ++ what ++ "!"

/-- Error message raised by `add_list_items` when no list is open. -/
def noListOpenMsg : String :=
  "No list is currently opened. Please open a list before adding list-items!"

/-- The `isinstance(parent, GroupItem) and parent.label in (LIST, ORDERED_LIST)`
test shared by the add-title/heading/paragraph guards. -/
def isOpenListGroup : DocItem → Bool
  | .group l => l == GroupLabelT.list || l == GroupLabelT.ordered_list
  | _ => false

/-- Replacement of the stack top (`stack_cache[-1] = item`). -/
def setStackTop (s : List DocItem) (x : DocItem) : List DocItem :=
  s.dropLast ++ [x]

/-- `add_title_to_docling_document`. -/
def add_title_to_docling_document (title : String) (st : GenState) :
    Except String (GenState × List DocItem) :=
  match st.document with
  | none => .error docNotInitMsg
  | some doc =>
    if h : st.stack_cache = [] then .error stackZeroMsg
    else
      let parent := st.stack_cache.getLast h
      if isOpenListGroup parent then .error (listOpenMsg "title")
      else
        let item := DocItem.title title
        let doc2 := doc ++ [item]
        .ok ({ document := some doc2, stack_cache := setStackTop st.stack_cache item }, doc2)

/-- `add_section_heading_to_docling_document`. -/
def add_section_heading_to_docling_document (section_heading : String)
    (section_level : Nat) (st : GenState) : Except String (GenState × List DocItem) :=
  match st.document with
  | none => .error docNotInitMsg
  | some doc =>
    if h : st.stack_cache = [] then .error stackZeroMsg
    else
      let parent := st.stack_cache.getLast h
      if isOpenListGroup parent then .error (listOpenMsg "section-heading")
      else
        let item := DocItem.sectionHeading section_heading section_level
        let doc2 := doc ++ [item]
        .ok ({ document := some doc2, stack_cache := setStackTop st.stack_cache item }, doc2)

/-- `add_paragraph_to_docling_document`. -/
def add_paragraph_to_docling_document (paragraph : String) (st : GenState) :
    Except String (GenState × List DocItem) :=
  match st.document with
  | none => .error docNotInitMsg
  | some doc =>
    if h : st.stack_cache = [] then .error stackZeroMsg
    else
      let parent := st.stack_cache.getLast h
      if isOpenListGroup parent then .error (listOpenMsg "paragraph")
      else
        let item := DocItem.textItem "text" paragraph
        let doc2 := doc ++ [item]
        .ok ({ document := some doc2, stack_cache := setStackTop st.stack_cache item }, doc2)

/-- `open_list_in_docling_document`: appends a list group to the document and
pushes it on the stack. -/
def open_list_in_docling_document (st : GenState) :
    Except String (GenState × List DocItem) :=
  match st.document with
  | none => .error docNotInitMsg
  | some doc =>
    if st.stack_cache = [] then .error stackZeroMsg
    else
      let item := DocItem.group GroupLabelT.list
      let doc2 := doc ++ [item]
      .ok ({ document := some doc2, stack_cache := st.stack_cache ++ [item] }, doc2)

/-- `close_list_in_docling_document`: its docstring requires more than one
stack item, but the code only rejects an empty stack, then pops. -/
def close_list_in_docling_document (st : GenState) :
    Except String (GenState × List DocItem) :=
  match st.document with
  | none => .error docNotInitMsg
  | some doc =>
    if st.stack_cache = [] then .error stackZeroMsg
    else
      .ok ({ document := some doc, stack_cache := st.stack_cache.dropLast }, doc)

/-- A `{list_item_text, list_marker_text}` pair. -/
structure ListItemPair where
  list_item_text : String
  list_marker_text : String
deriving DecidableEq, Repr

/-- `add_list_items_to_list_in_docling_document`: requires the stack top to be
an open (ordered) list group, then adds all items under it. -/
def add_list_items_to_list_in_docling_document (list_items : List ListItemPair)
    (st : GenState) : Except String (GenState × List DocItem) :=
  match st.document with
  | none => .error docNotInitMsg
  | some doc =>
    if h : st.stack_cache = [] then .error stackZeroMsg
    else
      let parent := st.stack_cache.getLast h
      if isOpenListGroup parent then
        let doc2 := doc ++
          list_items.map (fun li => DocItem.listItem li.list_item_text li.list_marker_text)
        .ok ({ document := some doc2, stack_cache := st.stack_cache }, doc2)
      else .error noListOpenMsg

/-- `add_table_in_html_format_to_docling_document`. The HTML-to-table
converter is an external collaborator, passed as a function returning `some`
exactly when conversion succeeds with at least one table (the parsed table
data itself is opaque to this embedding). -/
def add_table_in_html_format_to_docling_document (convert : String → Option Unit)
    (html_table : String) (table_captions table_footnotes : Option (List String))
    (st : GenState) : Except String (GenState × List DocItem) :=
  match st.document with
  | none => .error docNotInitMsg
  | some doc =>
    if st.stack_cache = [] then .error stackZeroMsg
    else
      match convert ("<html><body>" ++ html_table ++ "</body></html>") with
      | some _ =>
        let doc2 := doc ++ [DocItem.table]
          ++ (table_captions.getD []).map (fun c => DocItem.textItem "caption" c)
          ++ (table_footnotes.getD []).map (fun f => DocItem.textItem "footnote" f)
        .ok ({ document := some doc2, stack_cache := st.stack_cache }, doc2)
      | none =>
        .error "Could not parse the html string of the table! Please fix the html and try again!"

/-! Embedding of the `/document` upload endpoint
(`src/docling_mcp/servers/mcp_server.py`, `upload_document`). -/

/-- A JSON HTTP response: status code plus the single key/value payload the
endpoint builds. -/
structure HttpResponse where
  status : Nat
  key : String
  value : String
deriving DecidableEq, Repr

/-- `upload_document`: the request's JSON body is the association list of its
fields (values kept serialized); `model_validate` is the external document
validator of the docling library. Returns the new `shared.document` and the
response. -/
def upload_document {Doc : Type} (model_validate : String → Doc)
    (shared_document : Option Doc) (json_data : List (String × String)) :
    Option Doc × HttpResponse :=
  match json_data.lookup "document" with
  | some v =>
    (some (model_validate v),
     { status := 200, key := "message", value := "Document uploaded successfully." })
  | none =>
    (shared_document,
     { status := 400, key := "error", value := "No document provided in the request." })

/-! Concrete environments and runs used by witnesses and counterexamples. -/

/-- A response with one text segment and two tool-invocation requests. -/
def c1Content : List ContentBlock :=
  [ContentBlock.text "t", ContentBlock.toolUse "id1" "toolA" "a1",
   ContentBlock.toolUse "id2" "toolB" "a2"]

/-- An initial transcript holding one user query. -/
def c1Msgs : List Message := [{ role := "user", content := MessageContent.text "q" }]

/-- Environment whose model always answers `c1Content` and whose session
resolves `toolA` but raises on any other tool. -/
def envTool : Env :=
  { listTools := Except.ok [],
    modelStep := fun _ _ => Except.ok c1Content,
    callTool := fun name _ =>
      if name == "toolA" then Except.ok "resA" else Except.error "no such tool" }

/-- Environment whose model never requests tools. -/
def envNoTool : Env :=
  { listTools := Except.ok [],
    modelStep := fun _ _ => Except.ok [ContentBlock.text "done"],
    callTool := fun _ _ => Except.ok "unused" }

/-- Environment that requests a tool on each of the first 20 rounds (message
lists of length below 40) and answers plain text afterwards, driving the loop
into the iteration ceiling. -/
def envCeiling : Env :=
  { listTools := Except.ok [],
    modelStep := fun _ messages =>
      if messages.length < 40 then Except.ok [ContentBlock.toolUse "tid" "toolA" "args"]
      else Except.ok [ContentBlock.text "summary-S"],
    callTool := fun _ _ => Except.ok "ok-result" }

/-- The Turn Loop run of `envCeiling` on query `q` with no prior context. -/
def c3LoopOut : List Message × List String × Nat :=
  (turnLoop envCeiling [] max_iterations (initMessages none "q") [] 0).toOption.getD
    ([], [], 0)

/-- Environment that requests a tool on rounds 1-19 and completes naturally
with plain text on round 20 (which sees a message list of length 39), so the
loop exits with the counter at the ceiling but no outstanding tool calls. -/
def envNatural20 : Env :=
  { listTools := Except.ok [],
    modelStep := fun _ messages =>
      if messages.length < 39 then Except.ok [ContentBlock.toolUse "tid" "toolA" "args"]
      else if messages.length == 39 then Except.ok [ContentBlock.text "done"]
      else Except.ok [ContentBlock.text "summary-S"],
    callTool := fun _ _ => Except.ok "ok-result" }

/-- The Turn Loop run of `envNatural20` on query `q` with no prior context. -/
def c10LoopOut : List Message × List String × Nat :=
  (turnLoop envNatural20 [] max_iterations (initMessages none "q") [] 0).toOption.getD
    ([], [], 0)

/-- Environment whose session raises `boom` on every tool call. -/
def envBoom : Env :=
  { listTools := Except.ok [],
    modelStep := fun _ _ => Except.ok [],
    callTool := fun _ _ => Except.error "boom" }

/-- Environment whose model always answers the single text block `S`. -/
def envSummS : Env :=
  { listTools := Except.ok [],
    modelStep := fun _ _ => Except.ok [ContentBlock.text "S"],
    callTool := fun _ _ => Except.ok "r" }

/-- The result of the first task run against `envSummS`. -/
def c5Run : QueryResult :=
  (process_query envSummS "hello" (some (Context.str "prior"))).toOption.getD
    { transcript := [], executionLog := "", iterations := 0,
      newSummary := ContentBlock.text "" }

/-- Environment whose session connection is down: `list_tools` raises. -/
def envDown : Env :=
  { listTools := Except.error "connection lost",
    modelStep := fun _ _ => Except.ok [ContentBlock.text "unused"],
    callTool := fun _ _ => Except.ok "unused" }

/-! Helper lemmas about the round fold and the Turn Loop. -/

theorem except_ok_bind {e a b : Type} (x : a) (f : a → Except e b) :
    (Except.ok x : Except e a) >>= f = f x := rfl

theorem except_error_bind {e a b : Type} (err : e) (f : a → Except e b) :
    (Except.error err : Except e a) >>= f = Except.error err := rfl

theorem invokeTool_id (env : Env) (id name input : String) :
    (invokeTool env id name input).tool_use_id = id := by
  unfold invokeTool
  cases env.callTool name input <;> rfl

theorem toolUseIds_cons_text (s : String) (rest : List ContentBlock) :
    toolUseIds (ContentBlock.text s :: rest) = toolUseIds rest := rfl

theorem toolUseIds_cons_tool (id name input : String) (rest : List ContentBlock) :
    toolUseIds (ContentBlock.toolUse id name input :: rest) = id :: toolUseIds rest := rfl

theorem roundToolResults_cons_text (env : Env) (s : String) (rest : List ContentBlock) :
    roundToolResults env (ContentBlock.text s :: rest) = roundToolResults env rest := rfl

theorem roundToolResults_cons_tool (env : Env) (id name input : String)
    (rest : List ContentBlock) :
    roundToolResults env (ContentBlock.toolUse id name input :: rest) =
      invokeTool env id name input :: roundToolResults env rest := rfl

theorem roundFold_spec (env : Env) (bs : List ContentBlock) (st : RoundState) :
    (roundFold env bs st).messages = st.messages ++ textTurns bs ∧
    (roundFold env bs st).toolResults = st.toolResults ++ roundToolResults env bs ∧
    (roundFold env bs st).hasToolCalls = (st.hasToolCalls || bs.any isToolUse) := by
  induction bs generalizing st with
  | nil => simp [roundFold, textTurns, roundToolResults]
  | cons b rest ih =>
    cases b with
    | text s =>
      simpa [roundFold, processContent, textTurns, roundToolResults, isToolUse] using
        ih (processContent env st (ContentBlock.text s))
    | toolUse id name input =>
      simpa [roundFold, processContent, textTurns, roundToolResults, isToolUse] using
        ih (processContent env st (ContentBlock.toolUse id name input))

theorem roundToolResults_map_id (env : Env) (bs : List ContentBlock) :
    (roundToolResults env bs).map ToolResult.tool_use_id = toolUseIds bs := by
  induction bs with
  | nil => rfl
  | cons b rest ih =>
    cases b with
    | text s => rw [roundToolResults_cons_text, toolUseIds_cons_text, ih]
    | toolUse id name input =>
      rw [roundToolResults_cons_tool, toolUseIds_cons_tool, List.map_cons, invokeTool_id, ih]

theorem toolUseIds_eq_nil_iff (bs : List ContentBlock) :
    toolUseIds bs = [] ↔ bs.any isToolUse = false := by
  induction bs with
  | nil => simp [toolUseIds]
  | cons b rest ih =>
    cases b with
    | text s => rw [toolUseIds_cons_text, List.any_cons]; simpa [isToolUse] using ih
    | toolUse id name input =>
      rw [toolUseIds_cons_tool, List.any_cons]
      simp [isToolUse]

theorem processRound_noTools (env : Env) (tools : List ToolDescriptor)
    (messages : List Message) (log : List String) (content : List ContentBlock)
    (hresp : env.modelStep tools messages = Except.ok content)
    (hzero : toolUseIds content = []) :
    processRound env tools messages log =
      Except.ok (messages ++ textTurns content,
        (roundFold env content
          { log := log, messages := messages, toolResults := [], hasToolCalls := false }).log,
        false) := by
  have hany : content.any isToolUse = false := (toolUseIds_eq_nil_iff content).mp hzero
  obtain ⟨hm, ht, hh⟩ := roundFold_spec env content
    { log := log, messages := messages, toolResults := [], hasToolCalls := false }
  unfold processRound
  rw [hresp, except_ok_bind]
  simp only [hany, hh, hm, Bool.false_or]
  rfl

theorem turnLoop_iteration_le (env : Env) (tools : List ToolDescriptor) :
    ∀ (fuel : Nat) (messages : List Message) (log : List String) (iteration : Nat)
      (ms : List Message) (lg : List String) (it : Nat),
      turnLoop env tools fuel messages log iteration = Except.ok (ms, lg, it) →
      it ≤ iteration + fuel := by
  intro fuel
  induction fuel with
  | zero =>
    intro m l i ms lg it h
    unfold turnLoop at h
    cases h
    omega
  | succ fuel ih =>
    intro m l i ms lg it h
    unfold turnLoop at h
    cases hp : processRound env tools m l with
    | error e =>
      rw [hp, except_error_bind] at h
      cases h
    | ok trip =>
      obtain ⟨m2, l2, cont⟩ := trip
      rw [hp, except_ok_bind] at h
      cases cont with
      | false =>
        cases h
        omega
      | true =>
        have h2 := ih m2 l2 (i + 1) ms lg it h
        omega

theorem processRound_messages_extend (env : Env) (tools : List ToolDescriptor)
    (messages : List Message) (log : List String) (ms : List Message) (lg : List String)
    (cont : Bool)
    (h : processRound env tools messages log = Except.ok (ms, lg, cont)) :
    ∃ t, ms = messages ++ t := by
  unfold processRound at h
  cases hr : env.modelStep tools messages with
  | error e =>
    rw [hr, except_error_bind] at h
    cases h
  | ok content =>
    rw [hr, except_ok_bind] at h
    obtain ⟨hm, ht, hh⟩ := roundFold_spec env content
      { log := log, messages := messages, toolResults := [], hasToolCalls := false }
    by_cases hc :
        (roundFold env content
          { log := log, messages := messages, toolResults := [],
            hasToolCalls := false }).hasToolCalls = true
    · simp only [hc, if_true] at h
      cases h
      refine ⟨textTurns content ++
        [{ role := "assistant", content := MessageContent.blocks content },
         { role := "user", content := MessageContent.toolResults
            (roundFold env content
              { log := log, messages := messages, toolResults := [],
                hasToolCalls := false }).toolResults }], ?_⟩
      rw [hm]
      simp [List.append_assoc]
    · simp only [hc, if_false] at h
      cases h
      exact ⟨textTurns content, by rw [hm]⟩

theorem turnLoop_messages_extend (env : Env) (tools : List ToolDescriptor) :
    ∀ (fuel : Nat) (messages : List Message) (log : List String) (iteration : Nat)
      (ms : List Message) (lg : List String) (it : Nat),
      turnLoop env tools fuel messages log iteration = Except.ok (ms, lg, it) →
      ∃ t, ms = messages ++ t := by
  intro fuel
  induction fuel with
  | zero =>
    intro m l i ms lg it h
    unfold turnLoop at h
    cases h
    exact ⟨[], by simp⟩
  | succ fuel ih =>
    intro m l i ms lg it h
    unfold turnLoop at h
    cases hp : processRound env tools m l with
    | error e =>
      rw [hp, except_error_bind] at h
      cases h
    | ok trip =>
      obtain ⟨m2, l2, cont⟩ := trip
      rw [hp, except_ok_bind] at h
      obtain ⟨t1, ht1⟩ := processRound_messages_extend env tools m l m2 l2 cont hp
      cases cont with
      | false =>
        cases h
        exact ⟨t1, ht1⟩
      | true =>
        obtain ⟨t2, ht2⟩ := ih m2 l2 (i + 1) ms lg it h
        exact ⟨t1 ++ t2, by rw [ht2, ht1, List.append_assoc]⟩

theorem turnLoop_first_error (env : Env) (tools : List ToolDescriptor) (fuel : Nat)
    (messages : List Message) (log : List String) (iteration : Nat) (e : String)
    (h : env.modelStep tools messages = Except.error e) :
    turnLoop env tools (Nat.succ fuel) messages log iteration = Except.error e := by
  have hp : processRound env tools messages log = Except.error e := by
    unfold processRound
    rw [h, except_error_bind]
  unfold turnLoop
  rw [hp, except_error_bind]

theorem process_query_inv (env : Env) (q : String) (cs : Option Context) (r : QueryResult)
    (h : process_query env q cs = Except.ok r) :
    ∃ ts lg it, env.listTools = Except.ok ts ∧
      turnLoop env ts max_iterations (initMessages cs q) [] 0 =
        Except.ok (r.transcript, lg, it) := by
  unfold process_query at h
  cases hl : env.listTools with
  | error e =>
    rw [hl, except_error_bind] at h
    cases h
  | ok ts =>
    rw [hl, except_ok_bind] at h
    cases htl : turnLoop env ts max_iterations (initMessages cs q) [] 0 with
    | error e =>
      rw [htl, except_error_bind] at h
      cases h
    | ok trip =>
      obtain ⟨ms, lg, it⟩ := trip
      rw [htl, except_ok_bind] at h
      dsimp only at h
      cases hs : env.modelStep ts
          (ms ++ [{ role := "user", content := MessageContent.text summaryPrompt }]) with
      | error e =>
        rw [hs, except_error_bind] at h
        cases h
      | ok sc =>
        rw [hs, except_ok_bind] at h
        cases sc with
        | nil => cases h
        | cons b bs =>
          cases h
          exact ⟨ts, lg, it, rfl, htl⟩

/-- C1: in every round of the non-streaming Turn Loop whose model response
contains N >= 1 tool-invocation requests, exactly N Tool Result Envelopes are
produced, in emission order and each carrying the `tool_use_id` of its
request, and the round appends (after the per-text-segment assistant turns of
step 3) exactly one assistant turn holding the raw response content-block list
followed by exactly one user turn holding all N envelopes grouped together. -/
theorem claim_C1_round_envelopes (env : Env) (tools : List ToolDescriptor)
    (messages : List Message) (log : List String) (content : List ContentBlock)
    (hresp : env.modelStep tools messages = Except.ok content)
    (hN : 1 ≤ (toolUseIds content).length) :
    processRound env tools messages log =
      Except.ok
        (messages ++ textTurns content ++
           [{ role := "assistant", content := MessageContent.blocks content },
            { role := "user",
              content := MessageContent.toolResults (roundToolResults env content) }],
         (roundFold env content
            { log := log, messages := messages, toolResults := [],
              hasToolCalls := false }).log,
         true) ∧
    (roundToolResults env content).map ToolResult.tool_use_id = toolUseIds content ∧
    (roundToolResults env content).length = (toolUseIds content).length := by
  have hids : toolUseIds content ≠ [] := by
    intro h
    rw [h] at hN
    simp at hN
  have hany : content.any isToolUse = true := by
    rcases h : content.any isToolUse with _ | _
    · exact absurd ((toolUseIds_eq_nil_iff content).mpr h) hids
    · rfl
  obtain ⟨hm, ht, hh⟩ := roundFold_spec env content
    { log := log, messages := messages, toolResults := [], hasToolCalls := false }
  refine ⟨?_, roundToolResults_map_id env content, ?_⟩
  · unfold processRound
    rw [hresp, except_ok_bind]
    simp only [hany, hh, hm, ht, Bool.false_or, if_true]
    simp only [List.append_assoc]
    rfl
  · have h2 := congrArg List.length (roundToolResults_map_id env content)
    simpa using h2

/-- Witness for C1: a round of `envTool` with one text block and two tool
requests (one of which raises) produces exactly the two envelopes with
matching ids and the grouped two-turn transcript update. -/
theorem claim_C1_witness :
    1 ≤ (toolUseIds c1Content).length ∧
    processRound envTool [] c1Msgs [] =
      Except.ok
        (c1Msgs ++ textTurns c1Content ++
           [{ role := "assistant", content := MessageContent.blocks c1Content },
            { role := "user",
              content := MessageContent.toolResults (roundToolResults envTool c1Content) }],
         (roundFold envTool c1Content
            { log := [], messages := c1Msgs, toolResults := [],
              hasToolCalls := false }).log,
         true) ∧
    (roundToolResults envTool c1Content).map ToolResult.tool_use_id = ["id1", "id2"] ∧
    (roundToolResults envTool c1Content).length = 2 := by
  have h := claim_C1_round_envelopes envTool [] c1Msgs [] c1Content rfl (by decide)
  exact ⟨by decide, h.1, by rw [h.2.1]; decide, by rw [h.2.2]; decide⟩

/-- C2: in every round whose model response contains zero tool-invocation
requests, the Turn Loop terminates right after that round, however much fuel
remains: the iteration counter advances only by the one model call of that
round and the transcript receives only that round's own assistant text turns,
nothing further. -/
theorem claim_C2_terminates_without_tools (env : Env) (tools : List ToolDescriptor)
    (messages : List Message) (log : List String) (content : List ContentBlock)
    (fuel iteration : Nat)
    (hresp : env.modelStep tools messages = Except.ok content)
    (hzero : toolUseIds content = []) :
    turnLoop env tools (Nat.succ fuel) messages log iteration =
      Except.ok (messages ++ textTurns content,
        (roundFold env content
          { log := log, messages := messages, toolResults := [],
            hasToolCalls := false }).log,
        iteration + 1) := by
  have h := processRound_noTools env tools messages log content hresp hzero
  unfold turnLoop
  rw [h, except_ok_bind]
  rfl

/-- Witness for C2: with a model that answers only text, the loop with 19
rounds of fuel left stops after the single round, appending one assistant
text turn. -/
theorem claim_C2_witness :
    toolUseIds [ContentBlock.text "done"] = [] ∧
    turnLoop envNoTool [] (Nat.succ 18) c1Msgs [] 1 =
      Except.ok (c1Msgs ++ textTurns [ContentBlock.text "done"],
        (roundFold envNoTool [ContentBlock.text "done"]
          { log := [], messages := c1Msgs, toolResults := [],
            hasToolCalls := false }).log,
        2) :=
  ⟨rfl, claim_C2_terminates_without_tools envNoTool [] c1Msgs [] [ContentBlock.text "done"]
    18 1 rfl rfl⟩

/-- C3: the round counter of a completed Turn Loop run never exceeds the
ceiling of 20, and whatever the loop's exit mode (including hitting the
ceiling with the model still requesting tools), `process_query` still issues
the Context Compressor call on the accumulated transcript and returns its
response's first block as the new summary. -/
theorem claim_C3_iteration_ceiling (env : Env) (query : String) (cs : Option Context)
    (ts : List ToolDescriptor) (ms : List Message) (lg : List String) (it : Nat)
    (b : ContentBlock) (rest : List ContentBlock)
    (htools : env.listTools = Except.ok ts)
    (hloop : turnLoop env ts max_iterations (initMessages cs query) [] 0 =
      Except.ok (ms, lg, it))
    (hsum : env.modelStep ts
        (ms ++ [{ role := "user", content := MessageContent.text summaryPrompt }]) =
      Except.ok (b :: rest)) :
    it ≤ max_iterations ∧
    process_query env query cs =
      Except.ok { transcript := ms,
                  executionLog := String.intercalate "\n"
                    (if max_iterations ≤ it then lg ++ [ceilingNotice] else lg),
                  iterations := it,
                  newSummary := b } := by
  refine ⟨by simpa using
    turnLoop_iteration_le env ts max_iterations (initMessages cs query) [] 0 ms lg it hloop,
    ?_⟩
  unfold process_query
  rw [htools, except_ok_bind, hloop, except_ok_bind]
  dsimp only
  rw [hsum, except_ok_bind]
  rfl

/-- Witness for C3: `envCeiling` requests a tool on all 20 rounds; the loop
stops exactly at the ceiling (counter 20, not 21+) and the summarization call
still runs and delivers the summary block. -/
theorem claim_C3_witness :
    c3LoopOut.2.2 ≤ max_iterations ∧
    max_iterations ≤ c3LoopOut.2.2 ∧
    process_query envCeiling "q" none =
      Except.ok { transcript := c3LoopOut.1,
                  executionLog := String.intercalate "\n"
                    (if max_iterations ≤ c3LoopOut.2.2 then c3LoopOut.2.1 ++ [ceilingNotice]
                     else c3LoopOut.2.1),
                  iterations := c3LoopOut.2.2,
                  newSummary := ContentBlock.text "summary-S" } := by
  have h := claim_C3_iteration_ceiling envCeiling "q" none [] c3LoopOut.1 c3LoopOut.2.1
    c3LoopOut.2.2 (ContentBlock.text "summary-S") [] rfl (by rfl) (by rfl)
  exact ⟨h.1, by decide, h.2⟩

/-- C10: whenever the Turn Loop exits with the iteration counter equal to the
ceiling, `process_query` appends the ceiling-reached notice to the Execution
Log, regardless of whether the final round still requested tools or the task
completed naturally on round 20. -/
theorem claim_C10_ceiling_notice (env : Env) (query : String) (cs : Option Context)
    (ts : List ToolDescriptor) (ms : List Message) (lg : List String)
    (b : ContentBlock) (rest : List ContentBlock)
    (htools : env.listTools = Except.ok ts)
    (hloop : turnLoop env ts max_iterations (initMessages cs query) [] 0 =
      Except.ok (ms, lg, max_iterations))
    (hsum : env.modelStep ts
        (ms ++ [{ role := "user", content := MessageContent.text summaryPrompt }]) =
      Except.ok (b :: rest)) :
    process_query env query cs =
      Except.ok { transcript := ms,
                  executionLog := String.intercalate "\n" (lg ++ [ceilingNotice]),
                  iterations := max_iterations,
                  newSummary := b } := by
  unfold process_query
  rw [htools, except_ok_bind, hloop, except_ok_bind]
  dsimp only
  rw [if_pos (Nat.le_refl max_iterations), hsum, except_ok_bind]
  rfl

/-- Witness for C10: `envNatural20` completes naturally on round 20 (its last
response is plain text, so the final transcript ends with an assistant text
turn and no envelope turn), yet the notice is still appended to the log. -/
theorem claim_C10_witness :
    c10LoopOut.1.getLast? =
      some { role := "assistant", content := MessageContent.text "done" } ∧
    c10LoopOut.2.1.getLast? = some "Claude: done" ∧
    process_query envNatural20 "q" none =
      Except.ok { transcript := c10LoopOut.1,
                  executionLog := String.intercalate "\n" (c10LoopOut.2.1 ++ [ceilingNotice]),
                  iterations := max_iterations,
                  newSummary := ContentBlock.text "summary-S" } := by
  have h := claim_C10_ceiling_notice envNatural20 "q" none [] c10LoopOut.1 c10LoopOut.2.1
    (ContentBlock.text "summary-S") [] rfl (by rfl) (by rfl)
  exact ⟨by rfl, by rfl, h⟩

/-- C4 counterexample: against a session whose call raises with message
`boom`, the Tool Invoker flags `is_error=true` but the envelope's content is
not the exception's string itself: it is `Error: boom`. -/
theorem claim_C4_counterexample :
    envBoom.callTool "toolA" "args" = Except.error "boom" ∧
    (invokeTool envBoom "id0" "toolA" "args").is_error = true ∧
    (invokeTool envBoom "id0" "toolA" "args").content ≠ "boom" ∧
    (invokeTool envBoom "id0" "toolA" "args").content = "Error: boom" := by
  refine ⟨rfl, rfl, ?_, rfl⟩
  decide

/-- C4 amended: if the session call returns normally the envelope wraps the
raw result under `is_error=false`; if it raises, the invoker catches the
exception and returns `is_error=true` with the exception's string prefixed by
`Error: ` as content; in both cases processing the request only extends the
round's envelope list by exactly that envelope — the exception never
propagates out of the Tool Invoker and never aborts the round. -/
theorem claim_C4_tool_invoker (env : Env) (id name input : String) :
    (∀ c, env.callTool name input = Except.ok c →
      invokeTool env id name input =
        { tool_use_id := id, content := c, is_error := false }) ∧
    (∀ e, env.callTool name input = Except.error e →
      invokeTool env id name input =
        { tool_use_id := id, content := "Error: " ++ e, is_error := true }) ∧
    (∀ st : RoundState,
      (processContent env st (ContentBlock.toolUse id name input)).toolResults =
        st.toolResults ++ [invokeTool env id name input]) := by
  refine ⟨?_, ?_, ?_⟩
  · intro c hc
    unfold invokeTool
    rw [hc]
  · intro e he
    unfold invokeTool
    rw [he]
  · intro st
    rfl

/-- Witness for C4: one successful call and one raising call, with the
concrete envelopes the invoker returns. -/
theorem claim_C4_witness :
    envTool.callTool "toolA" "a1" = Except.ok "resA" ∧
    invokeTool envTool "id1" "toolA" "a1" =
      { tool_use_id := "id1", content := "resA", is_error := false } ∧
    envBoom.callTool "toolB" "a2" = Except.error "boom" ∧
    invokeTool envBoom "id2" "toolB" "a2" =
      { tool_use_id := "id2", content := "Error: boom", is_error := true } :=
  ⟨rfl, (claim_C4_tool_invoker envTool "id1" "toolA" "a1").1 "resA" rfl, rfl,
   (claim_C4_tool_invoker envBoom "id2" "toolB" "a2").2.1 "boom" rfl⟩

/-- C5 counterexample: after task T against `envSummS` the shell stores the
summary block whose text is `S` (nonempty), but in task T+1's transcript the
assistant-authored turn preceding the user query has content
`Previous conversation context: S` — the summary does not appear character
for character as the content of that turn. -/
theorem claim_C5_counterexample :
    chat_loop_step envSummS { context := Context.str "prior", streaming_mode := false }
        "hello" =
      ({ context := Context.block (ContentBlock.text "S"), streaming_mode := false },
       ChatOutcome.keepGoing) ∧
    (process_query envSummS "next" (some (Context.block (ContentBlock.text "S")))).toOption.map
        QueryResult.transcript =
      some [{ role := "assistant",
              content := MessageContent.text "Previous conversation context: S" },
            { role := "user", content := MessageContent.text "next" },
            { role := "assistant", content := MessageContent.text "S" }] ∧
    MessageContent.text "Previous conversation context: S" ≠ MessageContent.text "S" := by
  refine ⟨rfl, rfl, ?_⟩
  decide

/-- C5 amended: the Context Compressor's result stored by the shell is the
first content block of the summary response (not a plain string), and when the
stored carryover is truthy (in particular any nonempty prior summary), task
T+1's transcript begins with an assistant-authored turn whose content is the
fixed prefix `Previous conversation context: ` followed by the rendering of
the stored carryover, immediately followed by the user-query turn; the summary
appears inside that turn's content after the prefix, not as the whole
content. -/
theorem claim_C5_carryover (env : Env) (q : String) (c : Context) (r : QueryResult)
    (htruthy : contextTruthy (some c) = true)
    (hrun : process_query env q (some c) = Except.ok r) :
    r.transcript.take 2 =
      [{ role := "assistant",
         content := MessageContent.text ("Previous conversation context: " ++ renderContext c) },
       { role := "user", content := MessageContent.text q }] ∧
    (∀ st : ShellState, st.streaming_mode = false → st.context = c →
      pyStrip q = q → pyLower q ≠ "quit" → pyLower q ≠ "stream" →
      pyLower q ≠ "context" → pyLower q ≠ "reset" →
      chat_loop_step env st q =
        ({ context := Context.block r.newSummary, streaming_mode := false },
         ChatOutcome.keepGoing)) := by
  constructor
  · obtain ⟨ts, lg, it, hl, htl⟩ := process_query_inv env q (some c) r hrun
    obtain ⟨t, ht⟩ := turnLoop_messages_extend env ts max_iterations
      (initMessages (some c) q) [] 0 r.transcript lg it htl
    have hinit : initMessages (some c) q =
        [{ role := "assistant",
           content := MessageContent.text ("Previous conversation context: " ++ renderContext c) },
         { role := "user", content := MessageContent.text q }] := by
      have hred : initMessages (some c) q =
          (if contextTruthy (some c) = true then
            [{ role := "assistant",
               content := MessageContent.text ("Previous conversation context: " ++ renderContext c) }]
           else []) ++ [{ role := "user", content := MessageContent.text q }] := rfl
      rw [hred, htruthy]
      rfl
    rw [ht, hinit]
    rfl
  · intro st hs hc hq h1 h2 h3 h4
    have e1 : (pyLower q == "quit") = false := by simp [h1]
    have e2 : (pyLower q == "stream") = false := by simp [h2]
    have e3 : (pyLower q == "context") = false := by simp [h3]
    have e4 : (pyLower q == "reset") = false := by simp [h4]
    unfold chat_loop_step
    rw [hq]
    simp only [e1, e2, e3, e4, Bool.false_eq_true, if_false, hs, hc, hrun]

/-- Witness for C5 (amended): the concrete two-task run of `envSummS`. -/
theorem claim_C5_witness :
    contextTruthy (some (Context.str "prior")) = true ∧
    c5Run.transcript.take 2 =
      [{ role := "assistant",
         content := MessageContent.text "Previous conversation context: prior" },
       { role := "user", content := MessageContent.text "hello" }] ∧
    chat_loop_step envSummS { context := Context.str "prior", streaming_mode := false }
        "hello" =
      ({ context := Context.block c5Run.newSummary, streaming_mode := false },
       ChatOutcome.keepGoing) := by
  have h := claim_C5_carryover envSummS "hello" (Context.str "prior") c5Run rfl (by rfl)
  refine ⟨rfl, h.1.trans (by rfl), ?_⟩
  exact h.2 { context := Context.str "prior", streaming_mode := false } rfl rfl (by decide)
    (by decide) (by decide) (by decide) (by decide)

/-- C6: a task executed in streaming mode leaves the shell's stored Carryover
Summary untouched: after the shell processes a task input with the streaming
toggle on, the stored context is identical and the shell keeps accepting
commands. -/
theorem claim_C6_streaming_keeps_context (env : Env) (st : ShellState) (rawInput : String)
    (hstream : st.streaming_mode = true)
    (h1 : pyLower (pyStrip rawInput) ≠ "quit")
    (h2 : pyLower (pyStrip rawInput) ≠ "stream")
    (h3 : pyLower (pyStrip rawInput) ≠ "context")
    (h4 : pyLower (pyStrip rawInput) ≠ "reset") :
    (chat_loop_step env st rawInput).1.context = st.context ∧
    (chat_loop_step env st rawInput).2 = ChatOutcome.keepGoing := by
  have e1 : (pyLower (pyStrip rawInput) == "quit") = false := by simp [h1]
  have e2 : (pyLower (pyStrip rawInput) == "stream") = false := by simp [h2]
  have e3 : (pyLower (pyStrip rawInput) == "context") = false := by simp [h3]
  have e4 : (pyLower (pyStrip rawInput) == "reset") = false := by simp [h4]
  unfold chat_loop_step
  simp only [e1, e2, e3, e4, Bool.false_eq_true, if_false, hstream, if_true]
  cases process_query_with_streaming env (pyStrip rawInput) <;> simp

/-- Witness for C6: a streaming task against `envSummS` (whose model answers
text and whose summary would be the block `S`) leaves the stored context
exactly as it was. -/
theorem claim_C6_witness :
    (chat_loop_step envSummS { context := Context.str "old summary", streaming_mode := true }
        "go").1.context = Context.str "old summary" ∧
    (chat_loop_step envSummS { context := Context.str "old summary", streaming_mode := true }
        "go").2 = ChatOutcome.keepGoing :=
  claim_C6_streaming_keeps_context envSummS
    { context := Context.str "old summary", streaming_mode := true } "go"
    rfl (by decide) (by decide) (by decide) (by decide)

/-- C7: an exception raised while calling the session's `list_tools` or the
model propagates out of `process_query` unreformed (no retry inside the Turn
Loop), and the shell catches it, keeps accepting commands, and leaves the
stored Carryover Summary from the previous task unchanged. -/
theorem claim_C7_transport_failure (env : Env) (st : ShellState) (rawInput : String)
    (q : String) (cs : Option Context) (ts : List ToolDescriptor) (e1 e2 e3 : String) :
    (env.listTools = Except.error e1 → process_query env q cs = Except.error e1) ∧
    (env.listTools = Except.ok ts →
      env.modelStep ts (initMessages cs q) = Except.error e2 →
      process_query env q cs = Except.error e2) ∧
    (st.streaming_mode = false →
      pyLower (pyStrip rawInput) ≠ "quit" → pyLower (pyStrip rawInput) ≠ "stream" →
      pyLower (pyStrip rawInput) ≠ "context" → pyLower (pyStrip rawInput) ≠ "reset" →
      process_query env (pyStrip rawInput) (some st.context) = Except.error e3 →
      chat_loop_step env st rawInput = (st, ChatOutcome.keepGoing)) := by
  refine ⟨?_, ?_, ?_⟩
  · intro h
    unfold process_query
    rw [h, except_error_bind]
  · intro hl hm
    have hT : turnLoop env ts max_iterations (initMessages cs q) [] 0 =
        Except.error e2 :=
      turnLoop_first_error env ts 19 (initMessages cs q) [] 0 e2 hm
    unfold process_query
    rw [hl, except_ok_bind, hT, except_error_bind]
  · intro hs h1 h2 h3 h4 herr
    have b1 : (pyLower (pyStrip rawInput) == "quit") = false := by simp [h1]
    have b2 : (pyLower (pyStrip rawInput) == "stream") = false := by simp [h2]
    have b3 : (pyLower (pyStrip rawInput) == "context") = false := by simp [h3]
    have b4 : (pyLower (pyStrip rawInput) == "reset") = false := by simp [h4]
    unfold chat_loop_step
    simp only [b1, b2, b3, b4, Bool.false_eq_true, if_false, hs, herr]

/-- Witness for C7: against `envDown`, whose `list_tools` raises, the task
errors with the connection failure and the shell step returns the state
unchanged, still accepting commands. -/
theorem claim_C7_witness :
    envDown.listTools = Except.error "connection lost" ∧
    process_query envDown "hello" (some initialContext) = Except.error "connection lost" ∧
    chat_loop_step envDown { context := initialContext, streaming_mode := false } "hello" =
      ({ context := initialContext, streaming_mode := false }, ChatOutcome.keepGoing) := by
  have h := claim_C7_transport_failure envDown
    { context := initialContext, streaming_mode := false } "hello" "hello"
    (some initialContext) [] "connection lost" "x" "connection lost"
  have hpq := h.1 rfl
  exact ⟨rfl, hpq, h.2.2 rfl (by decide) (by decide) (by decide) (by decide) hpq⟩

/-- C8: a `POST /document` whose JSON body has a `document` field gets a 200
confirmation and replaces the shared document with the validated upload; a
body without the field gets a 400 error payload and leaves the shared
document unchanged. -/
theorem claim_C8_upload_document {Doc : Type} (model_validate : String → Doc)
    (d : Option Doc) (json_data : List (String × String)) :
    (∀ v, json_data.lookup "document" = some v →
      upload_document model_validate d json_data =
        (some (model_validate v),
         { status := 200, key := "message", value := "Document uploaded successfully." })) ∧
    (json_data.lookup "document" = none →
      upload_document model_validate d json_data =
        (d, { status := 400, key := "error",
              value := "No document provided in the request." })) := by
  constructor
  · intro v hv
    unfold upload_document
    rw [hv]
  · intro hn
    unfold upload_document
    rw [hn]

/-- Witness for C8: one body with the field, one without. -/
theorem claim_C8_witness :
    [("document", "doc-json")].lookup "document" = some "doc-json" ∧
    upload_document (fun s => s) (none : Option String) [("document", "doc-json")] =
      (some "doc-json",
       { status := 200, key := "message", value := "Document uploaded successfully." }) ∧
    [("other", "x")].lookup "document" = (none : Option String) ∧
    upload_document (fun s => s) (some "old") [("other", "x")] =
      (some "old",
       { status := 400, key := "error", value := "No document provided in the request." }) :=
  ⟨rfl,
   (claim_C8_upload_document (fun s => s) none [("document", "doc-json")]).1 "doc-json" rfl,
   rfl,
   (claim_C8_upload_document (fun s => s) (some "old") [("other", "x")]).2 rfl⟩

/-- C9: with an initialized document and exactly one stack item,
`close_list_in_docling_document` succeeds (the code only rejects an empty
stack, despite its docstring requiring more than one item) and empties the
stack; afterwards every document-mutating tool — add title, add section
heading, add paragraph, open list, add list items, add table, and a further
close — raises the `Stack size is zero` error. -/
theorem claim_C9_close_list_singleton (d : List DocItem) (x : DocItem) (t : String)
    (lvl : Nat) (p : String) (items : List ListItemPair)
    (convert : String → Option Unit) (html : String) :
    close_list_in_docling_document { document := some d, stack_cache := [x] } =
      Except.ok ({ document := some d, stack_cache := [] }, d) ∧
    add_title_to_docling_document t { document := some d, stack_cache := [] } =
      Except.error stackZeroMsg ∧
    add_section_heading_to_docling_document t lvl { document := some d, stack_cache := [] } =
      Except.error stackZeroMsg ∧
    add_paragraph_to_docling_document p { document := some d, stack_cache := [] } =
      Except.error stackZeroMsg ∧
    open_list_in_docling_document { document := some d, stack_cache := [] } =
      Except.error stackZeroMsg ∧
    add_list_items_to_list_in_docling_document items { document := some d, stack_cache := [] } =
      Except.error stackZeroMsg ∧
    add_table_in_html_format_to_docling_document convert html none none
        { document := some d, stack_cache := [] } =
      Except.error stackZeroMsg ∧
    close_list_in_docling_document { document := some d, stack_cache := [] } =
      Except.error stackZeroMsg := by
  refine ⟨?_, ?_, ?_, ?_, ?_, ?_, ?_, ?_⟩ <;>
    simp [close_list_in_docling_document, add_title_to_docling_document,
      add_section_heading_to_docling_document, add_paragraph_to_docling_document,
      open_list_in_docling_document, add_list_items_to_list_in_docling_document,
      add_table_in_html_format_to_docling_document]

end DoclingMCP
